import Mathlib

/-
Shallow embedding of the Ph-event-server Express backend
(src/unnamed/part_000 is the fullest variant; src/unnamed/part_001 and
src/index.js differ only in the login identifier and the signup response,
noted inline).  Stores are lists of records; each route handler is a pure
function from the store and the request to a response and the new store.
The handlers are modelled in their "connected" state (the `!collection`
503 guards fire only before the MongoDB connection completes).
-/

namespace PhEvent

/-- Hexadecimal digit test, used by the ObjectId validity check. -/
def isHexDigit (c : Char) : Bool :=
  (decide ('0' ≤ c) && decide (c ≤ '9')) ||
  (decide ('a' ≤ c) && decide (c ≤ 'f')) ||
  (decide ('A' ≤ c) && decide (c ≤ 'F'))

/-- Model of the mongodb driver collaborator: `new ObjectId(s)` succeeds
exactly when `s` is a 24-character hexadecimal string, and throws a
`BSONError` otherwise.  The route handlers construct the ObjectId inside
their try block, so a throw lands in the catch branch. -/
def isValidObjectId (s : String) : Bool :=
  s.length == 24 && s.toList.all isHexDigit

/-- An event document, as inserted by POST /api/events
(src/unnamed/part_000 lines 163-172): title, organizer name, dateTime,
location, description, attendeeCount, owner email, createdAt.
MongoDB `_id` is modelled as the `id` string (its 24-hex form). -/
structure Event where
  id : String
  title : String
  name : String
  dateTime : String
  location : String
  description : String
  attendeeCount : Int
  email : String
  createdAt : Nat
deriving DecidableEq, Repr

/-- Model of `eventsCollection.updateOne({_id}, {$inc: {attendeeCount: 1}})`:
updates the first document whose id matches, returning the new collection
and the driver's modifiedCount (a `$inc` by 1 always modifies a matched
document, so modifiedCount is 1 exactly when a document matched). -/
def updateOneInc : List Event → String → List Event × Nat
  | [], _ => ([], 0)
  | e :: rest, i =>
    if e.id == i then ({ e with attendeeCount := e.attendeeCount + 1 } :: rest, 1)
    else
      let r := updateOneInc rest i
      (e :: r.1, r.2)

/-- Response of the join route: HTTP status, message, and the event store
after the request. -/
structure JoinResult where
  status : Nat
  message : String
  events : List Event
deriving DecidableEq, Repr

/-- PATCH /api/events/join/:id (src/unnamed/part_000 lines 195-212).
`new ObjectId(id)` throws on a malformed id; the throw is caught by the
handler's catch, which responds 500 "Internal server error".  Otherwise
updateOne runs; modifiedCount 0 responds 404, else 200. -/
def joinEvent (events : List Event) (i : String) : JoinResult :=
  if isValidObjectId i then
    let r := updateOneInc events i
    if r.2 == 0 then ⟨404, "Event not found", events⟩
    else ⟨200, "Joined event successfully", r.1⟩
  else ⟨500, "Internal server error", events⟩

theorem updateOneInc_of_find?_none (events : List Event) (i : String)
    (h : events.find? (fun e => e.id == i) = none) :
    updateOneInc events i = (events, 0) := by
  induction events with
  | nil => rfl
  | cons e rest ih =>
    rw [List.find?_cons] at h
    by_cases he : (e.id == i) = true
    · simp [he] at h
    · simp only [Bool.not_eq_true] at he
      rw [he] at h
      simp [updateOneInc, he, ih h]

theorem updateOneInc_of_find?_some (events : List Event) (i : String) (e : Event)
    (h : events.find? (fun x => x.id == i) = some e) :
    (updateOneInc events i).2 = 1 ∧
    (updateOneInc events i).1.find? (fun x => x.id == i) =
      some { e with attendeeCount := e.attendeeCount + 1 } ∧
    (updateOneInc events i).1.length = events.length := by
  induction events with
  | nil => simp at h
  | cons e0 rest ih =>
    rw [List.find?_cons] at h
    by_cases he : (e0.id == i) = true
    · rw [he] at h
      simp only [Option.some.injEq] at h
      subst h
      refine ⟨by simp [updateOneInc, he], ?_, by simp [updateOneInc, he]⟩
      simp only [updateOneInc, he, if_pos]
      rw [List.find?_cons]
      simp [he]
    · simp only [Bool.not_eq_true] at he
      rw [he] at h
      simp only [Bool.false_eq_true, if_false] at h
      obtain ⟨h2, h3, h4⟩ := ih h
      refine ⟨by simp [updateOneInc, he, h2], ?_, by simp [updateOneInc, he, h4]⟩
      simp [updateOneInc, he, List.find?_cons, h3]

/-- C1: the claim states that a malformed event id on the join route fails
with 404.  In the code `new ObjectId(id)` throws and the catch branch
responds 500, so at the concrete malformed id "not-an-objectid" the join
response has status 500, not 404. -/
theorem C1_join_counterexample :
    (joinEvent [] "not-an-objectid").status = 500 ∧
    ¬ (joinEvent [] "not-an-objectid").status = 404 := by
  constructor
  · rfl
  · decide

/-- C1 (amended): if an event with the given well-formed id exists, join
increments its attendeeCount by exactly 1 and succeeds with 200; if the id
is well formed but matches no document, join fails with 404 and leaves the
store unchanged; if the id is malformed, the ObjectId construction error is
caught (the service does not crash) but the response is 500, not 404, and
the store is unchanged. -/
theorem C1_join_amended (events : List Event) (i : String) :
    (isValidObjectId i = false →
      joinEvent events i = ⟨500, "Internal server error", events⟩)
  ∧ (isValidObjectId i = true →
      events.find? (fun e => e.id == i) = none →
      (joinEvent events i).status = 404 ∧ (joinEvent events i).events = events)
  ∧ (isValidObjectId i = true →
      ∀ e, events.find? (fun x => x.id == i) = some e →
      (joinEvent events i).status = 200 ∧
      (joinEvent events i).events.find? (fun x => x.id == i) =
        some { e with attendeeCount := e.attendeeCount + 1 } ∧
      (joinEvent events i).events.length = events.length) := by
  refine ⟨fun hv => by simp [joinEvent, hv], fun hv hn => ?_, fun hv e hs => ?_⟩
  · have h0 := updateOneInc_of_find?_none events i hn
    simp [joinEvent, hv, h0]
  · obtain ⟨h2, h3, h4⟩ := updateOneInc_of_find?_some events i e hs
    simp [joinEvent, hv, h2, h3, h4]

/-- Sample well-formed ObjectId strings for witnesses. -/
def oidA : String := "aaaaaaaaaaaaaaaaaaaaaaaa"

/-- Second sample well-formed ObjectId string. -/
def oidB : String := "bbbbbbbbbbbbbbbbbbbbbbbb"

/-- Sample event stored under id `oidA`. -/
def evA : Event :=
  ⟨oidA, "Tech Meetup", "Alice", "2025-01-01T10:00", "Dhaka", "a meetup", 5, "a@x.com", 10⟩

/-- Witness for C1_join_amended: concrete runs through the malformed-id,
not-found and success branches. -/
theorem C1_join_amended_witness :
    (joinEvent [evA] "zz" = ⟨500, "Internal server error", [evA]⟩)
  ∧ ((joinEvent [evA] oidB).status = 404 ∧ (joinEvent [evA] oidB).events = [evA])
  ∧ ((joinEvent [evA] oidA).status = 200 ∧
      (joinEvent [evA] oidA).events.find? (fun x => x.id == oidA) =
        some { evA with attendeeCount := evA.attendeeCount + 1 } ∧
      (joinEvent [evA] oidA).events.length = [evA].length) :=
  ⟨(C1_join_amended [evA] "zz").1 (by decide),
   (C1_join_amended [evA] oidB).2.1 (by decide) (by decide),
   (C1_join_amended [evA] oidA).2.2 (by decide) evA (by decide)⟩

/-- A user document, as inserted by POST /signup (src/unnamed/part_000
lines 90-96): username, email, photoUrl, bcrypt password hash, createdAt.
MongoDB `_id` is modelled as the `id` string. -/
structure User where
  id : String
  username : String
  email : String
  photoUrl : String
  password : String
  createdAt : Nat
deriving DecidableEq, Repr

/-- Model of the bcrypt collaborator: `bcrypt.hash(pw, 10)` is modelled as
an injective tagging of the plaintext, standing for a salted one-way hash.
Only the round-trip contract matters to the routes: compare succeeds
exactly against the hash of the same plaintext. -/
def bcryptHash (pw : String) : String :=
  String.append "$2b$10$" pw

/-- Model of `bcrypt.compare(pw, hash)`: true exactly when `hash` was
produced by hashing `pw`. -/
def bcryptCompare (pw hash : String) : Bool :=
  hash == bcryptHash pw

/-- A JSON scalar as it appears in response bodies. -/
inductive Jval where
  | str (s : String)
  | null
deriving DecidableEq, Repr

/-- Model of the jsonwebtoken collaborator's token space: a token string is
either some string that is not a well-formed signed token (`raw`), or a
token signed with a given secret carrying the payload
`{userId, email-or-username claim}` and an expiry instant. -/
inductive Token where
  | raw (s : String)
  | signed (userId : String) (claim : String) (secret : String) (exp : Nat)
deriving DecidableEq, Repr

/-- Payload produced by a successful `jwt.verify`. -/
structure Payload where
  userId : String
  claim : String
deriving DecidableEq, Repr

/-- The ways `jwt.verify` can throw. -/
inductive JwtError where
  | malformed
  | badSignature
  | expired
deriving DecidableEq, Repr

/-- Model of `jwt.verify(token, secret)` at time `now`: throws on a
malformed token, a signature made with a different secret, or an expired
token; otherwise returns the decoded payload. -/
def jwtVerify (tok : Token) (secret : String) (now : Nat) : Except JwtError Payload :=
  match tok with
  | .raw _ => .error .malformed
  | .signed uid c s expAt =>
    if s == secret then
      if expAt ≤ now then .error .expired else .ok ⟨uid, c⟩
    else .error .badSignature

/-- Seven days in seconds, the `expiresIn: '7d'` horizon of `jwt.sign`. -/
def sevenDays : Nat := 7 * 24 * 60 * 60

/-- Response of POST /login: status, message, the issued token if any, and
the user projection of the response body if any. -/
structure LoginResult where
  status : Nat
  message : String
  token : Option Token
  user : Option (List (String × Jval))
deriving DecidableEq, Repr

/-- The user projection in the login success body (src/unnamed/part_000
lines 134-139): id, username, email, and `photoUrl || null` (JS `||`
turns the empty string into null). -/
def loginUserJson (u : User) : List (String × Jval) :=
  [("id", .str u.id), ("username", .str u.username), ("email", .str u.email),
   ("photoUrl", if u.photoUrl == "" then .null else .str u.photoUrl)]

/-- POST /login (src/unnamed/part_000 lines 117-145): looks the account up
by email; no match responds 401 "User not found"; a failing bcrypt compare
responds 401 "Invalid password"; a match signs a 7-day token and responds
200 with the token and the public user projection.  (src/unnamed/part_001
and src/index.js look up by username instead; their status/message
behaviour is identical.) -/
def login (users : List User) (secret : String) (now : Nat)
    (email pw : String) : LoginResult :=
  match users.find? (fun u => u.email == email) with
  | none => ⟨401, "User not found", none, none⟩
  | some u =>
    if bcryptCompare pw u.password then
      ⟨200, "Login successful",
        some (.signed u.id u.email secret (now + sevenDays)),
        some (loginUserJson u)⟩
    else ⟨401, "Invalid password", none, none⟩

/-- Sample stored user: email "alice@x.com", password "pw1" (hashed). -/
def userA : User :=
  ⟨oidA, "alice", "alice@x.com", "http://x.com/a.png", bcryptHash "pw1", 5⟩

/-- C2: the claim states that the unknown-account failure and the
wrong-password failure carry the same user-visible message.  At the
concrete store `[userA]` both failures are 401, but the messages are
"User not found" and "Invalid password" — not the same, so a client can
tell which part of the credential was wrong. -/
theorem C2_login_counterexample :
    (login [userA] "sec" 0 "bob@x.com" "pw1").status = 401 ∧
    (login [userA] "sec" 0 "alice@x.com" "wrong").status = 401 ∧
    ¬ (login [userA] "sec" 0 "bob@x.com" "pw1").message =
        (login [userA] "sec" 0 "alice@x.com" "wrong").message := by
  refine ⟨rfl, by decide, by decide⟩

/-- C2 (amended): against any stored state, the nonexistent-account failure
and the wrong-password failure both return status 401, but they carry
distinct user-visible messages — "User not found" versus
"Invalid password" — so the two causes are distinguishable to a client. -/
theorem C2_login_amended (users : List User) (secret : String) (now : Nat)
    (email pw : String) :
    (users.find? (fun u => u.email == email) = none →
      (login users secret now email pw).status = 401 ∧
      (login users secret now email pw).message = "User not found")
  ∧ (∀ u, users.find? (fun u => u.email == email) = some u →
      bcryptCompare pw u.password = false →
      (login users secret now email pw).status = 401 ∧
      (login users secret now email pw).message = "Invalid password")
  ∧ ¬ ("User not found" : String) = "Invalid password" := by
  refine ⟨fun hn => by simp [login, hn], fun u hs hc => by simp [login, hs, hc], by decide⟩

/-- Witness for C2_login_amended: both failure branches at a concrete
store, with their distinct messages. -/
theorem C2_login_amended_witness :
    ((login [userA] "sec" 0 "bob@x.com" "pw1").status = 401 ∧
     (login [userA] "sec" 0 "bob@x.com" "pw1").message = "User not found")
  ∧ ((login [userA] "sec" 0 "alice@x.com" "wrong").status = 401 ∧
     (login [userA] "sec" 0 "alice@x.com" "wrong").message = "Invalid password") :=
  ⟨(C2_login_amended [userA] "sec" 0 "bob@x.com" "pw1").1 (by decide),
   (C2_login_amended [userA] "sec" 0 "alice@x.com" "wrong").2.1 userA (by decide) (by decide)⟩

/-- C5: a login whose email matches a stored account but whose password
does not match the stored hash returns 401 with no token and no user body;
a token is issued exactly when the password matches (status 200); and the
success body's user projection carries exactly the keys id, username,
email, photoUrl — never a password field. -/
theorem C5_login_wrong_password (users : List User) (secret : String) (now : Nat)
    (email pw : String) :
    (∀ u, users.find? (fun u => u.email == email) = some u →
      bcryptCompare pw u.password = false →
      (login users secret now email pw).status = 401 ∧
      (login users secret now email pw).token = none ∧
      (login users secret now email pw).user = none)
  ∧ ((login users secret now email pw).token.isSome = true →
      (login users secret now email pw).status = 200 ∧
      ∃ u, users.find? (fun u => u.email == email) = some u ∧
        bcryptCompare pw u.password = true)
  ∧ (∀ u, users.find? (fun u => u.email == email) = some u →
      bcryptCompare pw u.password = true →
      (login users secret now email pw).user = some (loginUserJson u) ∧
      (loginUserJson u).map Prod.fst = ["id", "username", "email", "photoUrl"] ∧
      ¬ ("password", Jval.str u.password) ∈ loginUserJson u) := by
  refine ⟨fun u hs hc => by simp [login, hs, hc], ?_, fun u hs hc => ?_⟩
  · cases hf : users.find? (fun u => u.email == email) with
    | none => simp [login, hf]
    | some u =>
      by_cases hc : bcryptCompare pw u.password = true
      · exact fun _ => ⟨by simp [login, hf, hc], u, rfl, hc⟩
      · simp only [Bool.not_eq_true] at hc
        simp [login, hf, hc]
  · exact ⟨by simp [login, hs, hc], by simp [loginUserJson], by simp [loginUserJson]⟩

/-- Witness for C5_login_wrong_password: the wrong-password branch, the
token-issuance branch at a successful login, and the success projection at
a concrete store. -/
theorem C5_login_wrong_password_witness :
    ((login [userA] "sec" 0 "alice@x.com" "nope").status = 401 ∧
     (login [userA] "sec" 0 "alice@x.com" "nope").token = none ∧
     (login [userA] "sec" 0 "alice@x.com" "nope").user = none)
  ∧ ((login [userA] "sec" 0 "alice@x.com" "pw1").status = 200 ∧
      ∃ u, List.find? (fun u => u.email == "alice@x.com") [userA] = some u ∧
        bcryptCompare "pw1" u.password = true)
  ∧ ((login [userA] "sec" 0 "alice@x.com" "pw1").user = some (loginUserJson userA) ∧
     (loginUserJson userA).map Prod.fst = ["id", "username", "email", "photoUrl"] ∧
     ¬ ("password", Jval.str userA.password) ∈ loginUserJson userA) :=
  ⟨(C5_login_wrong_password [userA] "sec" 0 "alice@x.com" "nope").1 userA (by decide) (by decide),
   (C5_login_wrong_password [userA] "sec" 0 "alice@x.com" "pw1").2.1 (by decide),
   (C5_login_wrong_password [userA] "sec" 0 "alice@x.com" "pw1").2.2 userA (by decide) (by decide)⟩

/-- Response of POST /signup: status, message, the issued token if any
(src/unnamed/part_000 issues one; src/index.js does not), and the user
store after the request. -/
structure SignupResult where
  status : Nat
  message : String
  token : Option Token
  users : List User
deriving DecidableEq, Repr

/-- POST /signup (src/unnamed/part_000 lines 80-114): looks up the email;
an existing account responds 409 "Email already in use" and inserts
nothing; otherwise inserts the user with the bcrypt hash of the password
and responds 201 with a signed 7-day token.  `newId` stands for the
store-generated insertedId. -/
def signup (users : List User) (newId secret : String) (now : Nat)
    (username email photoUrl pw : String) : SignupResult :=
  match users.find? (fun u => u.email == email) with
  | some _ => ⟨409, "Email already in use", none, users⟩
  | none =>
    ⟨201, "Signup successful",
      some (.signed newId email secret (now + sevenDays)),
      users ++ [⟨newId, username, email, photoUrl, bcryptHash pw, now⟩]⟩

/-- Number of stored user records carrying the given email. -/
def countByEmail (users : List User) (email : String) : Nat :=
  (users.filter (fun u => u.email == email)).length

theorem find?_email_none_of_countByEmail_zero (users : List User) (email : String)
    (h : countByEmail users email = 0) :
    users.find? (fun u => u.email == email) = none := by
  rw [List.find?_eq_none]
  intro x hx hpx
  have hmem : x ∈ users.filter (fun u => u.email == email) := List.mem_filter.2 ⟨hx, hpx⟩
  unfold countByEmail at h
  rw [List.length_eq_zero] at h
  simp [h] at hmem

/-- C4: starting from a store holding no record for email `e`, two
sequential signups with `e` behave as claimed: the first succeeds with
201; the second fails with 409 (DuplicateEmail), returns the store
unchanged (inserts nothing); and afterwards the store holds exactly one
record for `e`. -/
theorem C4_signup_duplicate (users : List User) (id1 id2 secret : String)
    (now1 now2 : Nat) (un1 un2 e ph1 ph2 pw1 pw2 : String)
    (h : countByEmail users e = 0) :
    (signup users id1 secret now1 un1 e ph1 pw1).status = 201
  ∧ (signup (signup users id1 secret now1 un1 e ph1 pw1).users
      id2 secret now2 un2 e ph2 pw2).status = 409
  ∧ (signup (signup users id1 secret now1 un1 e ph1 pw1).users
      id2 secret now2 un2 e ph2 pw2).users =
      (signup users id1 secret now1 un1 e ph1 pw1).users
  ∧ countByEmail (signup (signup users id1 secret now1 un1 e ph1 pw1).users
      id2 secret now2 un2 e ph2 pw2).users e = 1 := by
  have hn := find?_email_none_of_countByEmail_zero users e h
  have h1 : (signup users id1 secret now1 un1 e ph1 pw1).users =
      users ++ [⟨id1, un1, e, ph1, bcryptHash pw1, now1⟩] := by
    simp [signup, hn]
  have hfind2 : (users ++ [(⟨id1, un1, e, ph1, bcryptHash pw1, now1⟩ : User)]).find?
      (fun u => u.email == e) = some ⟨id1, un1, e, ph1, bcryptHash pw1, now1⟩ := by
    rw [List.find?_append, hn]
    simp [List.find?_cons]
  have hcount : countByEmail (users ++ [(⟨id1, un1, e, ph1, bcryptHash pw1, now1⟩ : User)]) e = 1 := by
    unfold countByEmail at h ⊢
    rw [List.filter_append, List.length_append, h]
    simp [List.filter_cons]
  refine ⟨by simp [signup, hn], ?_, ?_, ?_⟩
  · rw [h1]
    simp [signup, hfind2]
  · rw [h1]
    simp [signup, hfind2]
  · rw [h1]
    simp only [signup, hfind2]
    exact hcount

/-- Witness for C4_signup_duplicate: two concrete signups with the same
fresh email against the empty store. -/
theorem C4_signup_duplicate_witness :
    (signup [] oidA "sec" 1 "alice" "a@x.com" "p.png" "pw1").status = 201
  ∧ (signup (signup [] oidA "sec" 1 "alice" "a@x.com" "p.png" "pw1").users
      oidB "sec" 2 "bob" "a@x.com" "q.png" "pw2").status = 409
  ∧ (signup (signup [] oidA "sec" 1 "alice" "a@x.com" "p.png" "pw1").users
      oidB "sec" 2 "bob" "a@x.com" "q.png" "pw2").users =
      (signup [] oidA "sec" 1 "alice" "a@x.com" "p.png" "pw1").users
  ∧ countByEmail (signup (signup [] oidA "sec" 1 "alice" "a@x.com" "p.png" "pw1").users
      oidB "sec" 2 "bob" "a@x.com" "q.png" "pw2").users "a@x.com" = 1 :=
  C4_signup_duplicate [] oidA oidB "sec" 1 2 "alice" "bob" "a@x.com" "p.png" "q.png" "pw1" "pw2" (by decide)

/-- JavaScript falsiness of a request-body string field: `!field` is true
when the field is absent (undefined) or the empty string. -/
def falsy : Option String → Bool
  | none => true
  | some s => s == ""

/-- Decimal value of a digit run. -/
def digitsVal (cs : List Char) : Nat :=
  cs.foldl (fun acc c => acc * 10 + (c.toNat - 48)) 0

/-- Model of JavaScript `parseInt(s)` for decimal inputs: skip leading
whitespace, read an optional sign, then the longest digit run; `none`
stands for NaN (no digits found).  Hexadecimal `0x` inputs are not
modelled (none of the claims concern them: a `0x` run still parses its
leading 0 here, and `parseInt` would parse the hex value — both integers). -/
def jsParseInt (s : String) : Option Int :=
  let cs := s.toList.dropWhile (fun c => c.isWhitespace)
  match cs with
  | '-' :: rest =>
    let ds := rest.takeWhile (fun c => c.isDigit)
    if ds.isEmpty then none else some (-(digitsVal ds : Int))
  | '+' :: rest =>
    let ds := rest.takeWhile (fun c => c.isDigit)
    if ds.isEmpty then none else some ((digitsVal ds : Int))
  | _ =>
    let ds := cs.takeWhile (fun c => c.isDigit)
    if ds.isEmpty then none else some ((digitsVal ds : Int))

/-- The stored attendeeCount: `parseInt(attendeeCount) || 0` — 0 when the
input is absent or parses to NaN (and when it parses to 0, which `||`
also sends to the right operand 0), otherwise the parsed integer. -/
def attendeeCoerce : Option String → Int
  | none => 0
  | some s =>
    match jsParseInt s with
    | none => 0
    | some n => n

/-- Response of POST /api/events: status, message, and the event store
after the request. -/
structure CreateResult where
  status : Nat
  message : String
  events : List Event
deriving DecidableEq, Repr

/-- POST /api/events (src/unnamed/part_000 lines 153-179): if any of
title, name, dateTime, location, description, email is falsy, responds
400 and inserts nothing; otherwise inserts the event with
`parseInt(attendeeCount) || 0` and responds 201.  `newId` stands for the
store-generated insertedId. -/
def createEvent (events : List Event) (newId : String) (now : Nat)
    (title name dateTime location description email : Option String)
    (attendeeCount : Option String) : CreateResult :=
  if falsy title || falsy name || falsy dateTime || falsy location ||
      falsy description || falsy email then
    ⟨400, "All fields including email are required", events⟩
  else
    ⟨201, "Event added successfully",
      events ++ [⟨newId, title.getD "", name.getD "", dateTime.getD "",
        location.getD "", description.getD "", attendeeCoerce attendeeCount,
        email.getD "", now⟩]⟩

/-- C6: an event-creation request in which any one of the required fields
title, name, dateTime, location, description, email is absent or empty
fails with status 400 and leaves the event store unchanged. -/
theorem C6_create_validation (events : List Event) (newId : String) (now : Nat)
    (title name dateTime location description email attendeeCount : Option String)
    (h : falsy title = true ∨ falsy name = true ∨ falsy dateTime = true ∨
         falsy location = true ∨ falsy description = true ∨ falsy email = true) :
    (createEvent events newId now title name dateTime location description email
      attendeeCount).status = 400 ∧
    (createEvent events newId now title name dateTime location description email
      attendeeCount).events = events := by
  rcases h with h | h | h | h | h | h <;> simp [createEvent, h]

/-- Witness for C6_create_validation: a creation request with an empty
title against the empty store. -/
theorem C6_create_validation_witness :
    (createEvent [] oidA 0 (some "") (some "Alice") (some "2025-01-01")
      (some "Dhaka") (some "desc") (some "a@x.com") none).status = 400 ∧
    (createEvent [] oidA 0 (some "") (some "Alice") (some "2025-01-01")
      (some "Dhaka") (some "desc") (some "a@x.com") none).events = [] :=
  C6_create_validation [] oidA 0 (some "") (some "Alice") (some "2025-01-01")
    (some "Dhaka") (some "desc") (some "a@x.com") none (Or.inl (by decide))

/-- C7: the claim states that the stored attendeeCount is always
non-negative.  At the concrete input "-5", `parseInt` yields -5, `|| 0`
keeps it, and the created event stores attendeeCount -5 < 0. -/
theorem C7_attendee_counterexample :
    (createEvent [] oidA 0 (some "t") (some "n") (some "d") (some "l")
      (some "x") (some "a@x.com") (some "-5")).events.map
        (fun e => e.attendeeCount) = [(-5 : Int)] ∧
    ¬ (0 : Int) ≤ -5 := by
  constructor
  · rfl
  · decide

/-- C7 (amended): on every successful creation the stored attendeeCount is
an integer equal to `parseInt(input) || 0`: it is 0 when the input is
absent or non-numeric, and otherwise equals the parsed integer — which may
be negative, so non-negativity is not guaranteed. -/
theorem C7_attendee_coercion (events : List Event) (newId : String) (now : Nat)
    (title name dateTime location description email attendeeCount : Option String)
    (h1 : falsy title = false) (h2 : falsy name = false)
    (h3 : falsy dateTime = false) (h4 : falsy location = false)
    (h5 : falsy description = false) (h6 : falsy email = false) :
    ((createEvent events newId now title name dateTime location description email
        attendeeCount).status = 201 ∧
     (createEvent events newId now title name dateTime location description email
        attendeeCount).events.getLast?.map (fun e => e.attendeeCount) =
        some (attendeeCoerce attendeeCount))
  ∧ (attendeeCount = none → attendeeCoerce attendeeCount = 0)
  ∧ (∀ s, attendeeCount = some s → jsParseInt s = none →
      attendeeCoerce attendeeCount = 0)
  ∧ (∀ s n, attendeeCount = some s → jsParseInt s = some n →
      attendeeCoerce attendeeCount = n) := by
  refine ⟨⟨?_, ?_⟩, ?_, ?_, ?_⟩
  · simp [createEvent, h1, h2, h3, h4, h5, h6]
  · simp [createEvent, h1, h2, h3, h4, h5, h6]
  · rintro rfl
    rfl
  · rintro s rfl hp
    simp [attendeeCoerce, hp]
  · rintro s n rfl hp
    simp [attendeeCoerce, hp]

/-- Witness for C7_attendee_coercion: a successful creation with a
non-numeric attendeeCount input, stored as 0. -/
theorem C7_attendee_coercion_witness :
    ((createEvent [] oidA 0 (some "t") (some "n") (some "d") (some "l")
        (some "x") (some "a@x.com") (some "lots")).status = 201 ∧
     (createEvent [] oidA 0 (some "t") (some "n") (some "d") (some "l")
        (some "x") (some "a@x.com") (some "lots")).events.getLast?.map
        (fun e => e.attendeeCount) = some (attendeeCoerce (some "lots")))
  ∧ (some "lots" = none → attendeeCoerce (some "lots") = 0)
  ∧ (∀ s, some "lots" = some s → jsParseInt s = none →
      attendeeCoerce (some "lots") = 0)
  ∧ (∀ s n, some "lots" = some s → jsParseInt s = some n →
      attendeeCoerce (some "lots") = n) :=
  C7_attendee_coercion [] oidA 0 (some "t") (some "n") (some "d") (some "l")
    (some "x") (some "a@x.com") (some "lots")
    (by decide) (by decide) (by decide) (by decide) (by decide) (by decide)

/-- The ordering requested by `.sort({createdAt: -1})`: an event comes
before another when its creation timestamp is at least as recent. -/
def newestFirst (a b : Event) : Prop :=
  b.createdAt ≤ a.createdAt

instance : DecidableRel newestFirst :=
  fun a b => inferInstanceAs (Decidable (b.createdAt ≤ a.createdAt))

instance : IsTotal Event newestFirst :=
  ⟨fun a b => Nat.le_total b.createdAt a.createdAt⟩

instance : IsTrans Event newestFirst :=
  ⟨fun _ _ _ h1 h2 => Nat.le_trans h2 h1⟩

/-- Response of GET /api/events: status and the returned event list. -/
structure ListResult where
  status : Nat
  events : List Event
deriving DecidableEq, Repr

/-- GET /api/events (src/unnamed/part_000 lines 182-192): returns the
whole collection sorted by createdAt descending with status 200.  The
MongoDB sort collaborator is modelled as an insertion sort by the
`newestFirst` relation (any sort by that key satisfies the route's
contract; ties are broken arbitrarily by the store). -/
def getAllEvents (events : List Event) : ListResult :=
  ⟨200, List.insertionSort newestFirst events⟩

/-- C8: GET /api/events responds 200 with a permutation of the whole
stored collection (every stored event, nothing else), ordered so that
every event's creation timestamp is at least that of every later one —
most recently created first. -/
theorem C8_listAll_newest_first (events : List Event) :
    (getAllEvents events).status = 200 ∧
    (getAllEvents events).events.Perm events ∧
    (getAllEvents events).events.Sorted newestFirst :=
  ⟨rfl, List.perm_insertionSort newestFirst events,
    List.sorted_insertionSort newestFirst events⟩

/-- The request body of PUT /api/events/:id: a partial set of event
fields to `$set` (MongoDB rejects `$set` on `_id`, so the id is not
patchable). -/
structure EventPatch where
  title : Option String
  name : Option String
  dateTime : Option String
  location : Option String
  description : Option String
  attendeeCount : Option Int
  email : Option String
  createdAt : Option Nat
deriving DecidableEq, Repr

/-- Merging a `$set` body into an event document: each present field
overwrites, absent fields keep their stored value. -/
def applyPatch (e : Event) (p : EventPatch) : Event :=
  { e with
    title := p.title.getD e.title
    name := p.name.getD e.name
    dateTime := p.dateTime.getD e.dateTime
    location := p.location.getD e.location
    description := p.description.getD e.description
    attendeeCount := p.attendeeCount.getD e.attendeeCount
    email := p.email.getD e.email
    createdAt := p.createdAt.getD e.createdAt }

/-- True when the update body carries no fields at all; MongoDB rejects
such a `{$set: {}}` command with a server error instead of running it. -/
def EventPatch.isEmpty (p : EventPatch) : Bool :=
  p.title.isNone && p.name.isNone && p.dateTime.isNone && p.location.isNone &&
  p.description.isNone && p.attendeeCount.isNone && p.email.isNone && p.createdAt.isNone

/-- Model of `eventsCollection.updateOne({_id}, {$set: body})` for a
non-empty body (the route maps an empty body to the server's empty-`$set`
error before this point): rewrites the first document whose id matches;
the driver's modifiedCount is 1 only when the matched document actually
changed (a no-op `$set` of equal values reports 0). -/
def updateOneSet : List Event → String → EventPatch → List Event × Nat
  | [], _, _ => ([], 0)
  | e :: rest, i, p =>
    if e.id == i then
      (applyPatch e p :: rest, if applyPatch e p = e then 0 else 1)
    else
      let r := updateOneSet rest i p
      (e :: r.1, r.2)

/-- Response of PUT /api/events/:id: status, message, and the event store
after the request. -/
structure UpdateResult where
  status : Nat
  message : String
  events : List Event
deriving DecidableEq, Repr

/-- PUT /api/events/:id (src/unnamed/part_000 lines 229-250): a malformed
id makes `new ObjectId(id)` throw, caught as 500 "Failed to update event";
an empty request body makes MongoDB reject the empty `$set` operand, and
that server error lands in the same catch, also 500; otherwise updateOne
runs and the handler responds 200 when modifiedCount > 0 and 404
"Event not found or already up to date" when it is 0 — which covers both
a missing document and a no-op update of equal field values. -/
def updateEvent (events : List Event) (i : String) (p : EventPatch) : UpdateResult :=
  if isValidObjectId i then
    if p.isEmpty then ⟨500, "Failed to update event", events⟩
    else
      let r := updateOneSet events i p
      if 0 < r.2 then ⟨200, "Event updated successfully", r.1⟩
      else ⟨404, "Event not found or already up to date", r.1⟩
  else ⟨500, "Failed to update event", events⟩

theorem updateOneSet_of_find?_none (events : List Event) (i : String) (p : EventPatch)
    (h : events.find? (fun e => e.id == i) = none) :
    updateOneSet events i p = (events, 0) := by
  induction events with
  | nil => rfl
  | cons e rest ih =>
    rw [List.find?_cons] at h
    by_cases he : (e.id == i) = true
    · simp [he] at h
    · simp only [Bool.not_eq_true] at he
      rw [he] at h
      simp [updateOneSet, he, ih h]

theorem updateOneSet_of_find?_some (events : List Event) (i : String) (p : EventPatch)
    (e : Event) (h : events.find? (fun x => x.id == i) = some e) :
    (applyPatch e p = e → updateOneSet events i p = (events, 0))
  ∧ (¬ applyPatch e p = e →
      (updateOneSet events i p).2 = 1 ∧
      (updateOneSet events i p).1.find? (fun x => x.id == i) = some (applyPatch e p)) := by
  induction events with
  | nil => simp at h
  | cons e0 rest ih =>
    rw [List.find?_cons] at h
    by_cases he : (e0.id == i) = true
    · rw [he] at h
      simp only [Option.some.injEq] at h
      subst h
      constructor
      · intro hnoop
        simp [updateOneSet, he, hnoop]
      · intro hchange
        have hid : (applyPatch e0 p).id = e0.id := rfl
        refine ⟨by simp [updateOneSet, he, hchange], ?_⟩
        simp only [updateOneSet, he, if_pos, hchange, if_neg]
        rw [List.find?_cons]
        simp [hid, he, hchange]
    · simp only [Bool.not_eq_true] at he
      rw [he] at h
      simp only [Bool.false_eq_true, if_false] at h
      obtain ⟨ihn, ihc⟩ := ih h
      constructor
      · intro hnoop
        simp [updateOneSet, he, ihn hnoop]
      · intro hchange
        obtain ⟨h2, h3⟩ := ihc hchange
        refine ⟨by simp [updateOneSet, he, h2], ?_⟩
        simp [updateOneSet, he, List.find?_cons, h3]

/-- An update request whose body is empty never reaches the 404/200
branches: MongoDB rejects the empty `$set` (or the malformed id throws
first) and the catch responds 500 "Failed to update event", leaving the
store unchanged. -/
theorem updateEvent_empty_patch (events : List Event) (i : String) :
    updateEvent events i ⟨none, none, none, none, none, none, none, none⟩ =
      ⟨500, "Failed to update event", events⟩ := by
  by_cases hv : isValidObjectId i = true
  · simp [updateEvent, hv, EventPatch.isEmpty]
  · simp only [Bool.not_eq_true] at hv
    simp [updateEvent, hv]

/-- C9: for a well-formed event id and a non-empty update body (an empty
body is rejected by the store's empty-`$set` error and reported 500, see
updateEvent_empty_patch), the update route succeeds (200) exactly when
the targeted document exists and the merged fields change its content;
when no document matches, and when the merge is a no-op, it responds
identically — status 404 with the message
"Event not found or already up to date" and an unchanged store. -/
theorem C9_update_noop_vs_missing (events : List Event) (i : String) (p : EventPatch)
    (hv : isValidObjectId i = true) (hne : EventPatch.isEmpty p = false) :
    (events.find? (fun e => e.id == i) = none →
      updateEvent events i p =
        ⟨404, "Event not found or already up to date", events⟩)
  ∧ (∀ e, events.find? (fun x => x.id == i) = some e → applyPatch e p = e →
      updateEvent events i p =
        ⟨404, "Event not found or already up to date", events⟩)
  ∧ (∀ e, events.find? (fun x => x.id == i) = some e → ¬ applyPatch e p = e →
      (updateEvent events i p).status = 200 ∧
      (updateEvent events i p).events.find? (fun x => x.id == i) =
        some (applyPatch e p)) := by
  refine ⟨fun hn => ?_, fun e hs hnoop => ?_, fun e hs hchange => ?_⟩
  · have h0 := updateOneSet_of_find?_none events i p hn
    simp [updateEvent, hv, hne, h0]
  · have h0 := (updateOneSet_of_find?_some events i p e hs).1 hnoop
    simp [updateEvent, hv, hne, h0]
  · obtain ⟨h2, h3⟩ := (updateOneSet_of_find?_some events i p e hs).2 hchange
    simp [updateEvent, hv, hne, h2, h3]

/-- Patch whose only field sets location to "Dhaka" — a faithful no-op
against `evA`, whose stored location is already "Dhaka". -/
def patchDhaka : EventPatch :=
  ⟨none, none, none, some "Dhaka", none, none, none, none⟩

/-- Patch whose only field sets location to "Sylhet", changing `evA`. -/
def patchSylhet : EventPatch :=
  ⟨none, none, none, some "Sylhet", none, none, none, none⟩

/-- Witness for C9_update_noop_vs_missing: against the store `[evA]`, an
unmatched well-formed id and a non-empty no-op patch (location set to the
value already stored) draw the identical 404 response, and a changing
patch succeeds. -/
theorem C9_update_noop_vs_missing_witness :
    (updateEvent [evA] oidB patchDhaka =
      ⟨404, "Event not found or already up to date", [evA]⟩)
  ∧ (updateEvent [evA] oidA patchDhaka =
      ⟨404, "Event not found or already up to date", [evA]⟩)
  ∧ ((updateEvent [evA] oidA patchSylhet).status = 200 ∧
     (updateEvent [evA] oidA patchSylhet).events.find?
        (fun x => x.id == oidA) = some (applyPatch evA patchSylhet)) :=
  ⟨(C9_update_noop_vs_missing [evA] oidB patchDhaka (by decide) (by decide)).1 (by decide),
   (C9_update_noop_vs_missing [evA] oidA patchDhaka (by decide) (by decide)).2.1
     evA (by decide) (by decide),
   (C9_update_noop_vs_missing [evA] oidA patchSylhet (by decide) (by decide)).2.2
     evA (by decide) (by decide)⟩

/-- Outcome of the authenticateJWT middleware: an early rejection with a
status and message, or an authorized pass with `req.user` attached. -/
inductive AuthOutcome where
  | rejected (status : Nat) (message : String)
  | authorized (user : List (String × Jval))
deriving DecidableEq, Repr

/-- The body of GET /api/user/me on success, i.e. `req.user` as the
middleware attaches it (src/unnamed/part_000 lines 63-68): id, username,
email, photoUrl — the stored password hash is not projected. -/
def meUserJson (u : User) : List (String × Jval) :=
  [("id", .str u.id), ("username", .str u.username),
   ("email", .str u.email), ("photoUrl", .str u.photoUrl)]

/-- authenticateJWT (src/unnamed/part_000 lines 50-75).  The Authorization
header is modelled already split on spaces, each part a value of the token
space; `none` covers an absent (or empty, hence falsy) header.  A missing
header or a missing second part rejects 401; a failing `jwt.verify`
rejects 403; `new ObjectId(decoded.userId)` throwing on a malformed
userId lands in the same catch, rejecting 403 with the same message; an
unknown user rejects 401; otherwise the projection is attached. -/
def authenticateJWT (users : List User) (secret : String) (now : Nat)
    (authHeader : Option (List Token)) : AuthOutcome :=
  match authHeader with
  | none => .rejected 401 "Authorization header missing"
  | some parts =>
    match parts[1]? with
    | none => .rejected 401 "Token missing"
    | some tok =>
      match jwtVerify tok secret now with
      | .error _ => .rejected 403 "Invalid or expired token"
      | .ok payload =>
        if isValidObjectId payload.userId then
          match users.find? (fun u => u.id == payload.userId) with
          | none => .rejected 401 "User not found"
          | some u => .authorized (meUserJson u)
        else .rejected 403 "Invalid or expired token"

/-- Response of GET /api/user/me: status and JSON body. -/
structure MeResult where
  status : Nat
  body : List (String × Jval)
deriving DecidableEq, Repr

/-- GET /api/user/me (src/unnamed/part_000 lines 148-150): the middleware
either rejects with its status and `{message}` body, or the handler
responds 200 with `req.user`. -/
def getMe (users : List User) (secret : String) (now : Nat)
    (authHeader : Option (List Token)) : MeResult :=
  match authenticateJWT users secret now authHeader with
  | .rejected s m => ⟨s, [("message", .str m)]⟩
  | .authorized u => ⟨200, u⟩

/-- C3: GET /api/user/me responds 401 with no Authorization header; 403
whenever the presented token fails verification (malformed, bad
signature, or expired — distinguishable from the 401 case by status); and
with a valid token for an existing user it responds 200 with exactly the
identity keys id, username, email, photoUrl — never a password field. -/
theorem C3_me_route (users : List User) (secret : String) (now : Nat) :
    ((getMe users secret now none).status = 401)
  ∧ (∀ parts tok err, parts[1]? = some tok →
      jwtVerify tok secret now = .error err →
      (getMe users secret now (some parts)).status = 403)
  ∧ (∀ parts tok payload u, parts[1]? = some tok →
      jwtVerify tok secret now = .ok payload →
      isValidObjectId payload.userId = true →
      users.find? (fun x => x.id == payload.userId) = some u →
      (getMe users secret now (some parts)).status = 200 ∧
      (getMe users secret now (some parts)).body = meUserJson u ∧
      (meUserJson u).map Prod.fst = ["id", "username", "email", "photoUrl"] ∧
      ¬ ("password", Jval.str u.password) ∈ meUserJson u) := by
  refine ⟨rfl, fun parts tok err hp hv => ?_, fun parts tok payload u hp hv ho hf => ?_⟩
  · simp [getMe, authenticateJWT, hp, hv]
  · refine ⟨?_, ?_, by simp [meUserJson], by simp [meUserJson]⟩
    · simp [getMe, authenticateJWT, hp, hv, ho, hf]
    · simp [getMe, authenticateJWT, hp, hv, ho, hf]

/-- Token signed for `userA` with secret "sec", expiring at time 100. -/
def tokA : Token := .signed oidA "alice@x.com" "sec" 100

/-- Witness for C3_me_route: the missing-header, expired-token and
valid-token branches at a concrete store and time 50. -/
theorem C3_me_route_witness :
    ((getMe [userA] "sec" 50 none).status = 401)
  ∧ ((getMe [userA] "sec" 50 (some [.raw "Bearer", .raw "garbage"])).status = 403)
  ∧ ((getMe [userA] "sec" 50 (some [.raw "Bearer", tokA])).status = 200 ∧
     (getMe [userA] "sec" 50 (some [.raw "Bearer", tokA])).body = meUserJson userA ∧
     (meUserJson userA).map Prod.fst = ["id", "username", "email", "photoUrl"] ∧
     ¬ ("password", Jval.str userA.password) ∈ meUserJson userA) :=
  ⟨(C3_me_route [userA] "sec" 50).1,
   (C3_me_route [userA] "sec" 50).2.1 [.raw "Bearer", .raw "garbage"]
     (.raw "garbage") .malformed rfl rfl,
   (C3_me_route [userA] "sec" 50).2.2 [.raw "Bearer", tokA] tokA
     ⟨oidA, "alice@x.com"⟩ userA rfl rfl (by decide) rfl⟩

/-- C10: a token that verifies (correctly signed, unexpired) but whose
embedded userId is not a valid ObjectId string makes the middleware
reject 403 "Invalid or expired token" — the identical outcome produced
for a token with a bad signature — rather than 401 or a crash, because
the ObjectId construction throw is caught by the same catch handler. -/
theorem C10_bad_userId_as_invalid_token (users : List User) (secret : String) (now : Nat) :
    (∀ parts tok payload, parts[1]? = some tok →
      jwtVerify tok secret now = .ok payload →
      isValidObjectId payload.userId = false →
      authenticateJWT users secret now (some parts) =
        .rejected 403 "Invalid or expired token")
  ∧ (∀ parts tok, parts[1]? = some tok →
      jwtVerify tok secret now = .error .badSignature →
      authenticateJWT users secret now (some parts) =
        .rejected 403 "Invalid or expired token") := by
  refine ⟨fun parts tok payload hp hv ho => ?_, fun parts tok hp hv => ?_⟩
  · simp [authenticateJWT, hp, hv, ho]
  · simp [authenticateJWT, hp, hv]

/-- Witness for C10_bad_userId_as_invalid_token: a verifiable token whose
userId "not-an-objectid" fails ObjectId construction, and a token signed
with the wrong secret, drawing the same 403 rejection. -/
theorem C10_bad_userId_as_invalid_token_witness :
    (authenticateJWT [userA] "sec" 50
        (some [.raw "Bearer", .signed "not-an-objectid" "alice@x.com" "sec" 100]) =
      .rejected 403 "Invalid or expired token")
  ∧ (authenticateJWT [userA] "sec" 50
        (some [.raw "Bearer", .signed oidA "alice@x.com" "other" 100]) =
      .rejected 403 "Invalid or expired token") :=
  ⟨(C10_bad_userId_as_invalid_token [userA] "sec" 50).1
     [.raw "Bearer", .signed "not-an-objectid" "alice@x.com" "sec" 100]
     (.signed "not-an-objectid" "alice@x.com" "sec" 100)
     ⟨"not-an-objectid", "alice@x.com"⟩ rfl rfl (by decide),
   (C10_bad_userId_as_invalid_token [userA] "sec" 50).2
     [.raw "Bearer", .signed oidA "alice@x.com" "other" 100]
     (.signed oidA "alice@x.com" "other" 100) rfl rfl⟩

end PhEvent
